import Mathlib

/-!
Verification of the ArkID `OrgClient` resource client
(`arkid_client_python/arkid_client/org/client.py`).

Each Python method of `OrgClient` builds a relative path by string
interpolation, emits one informational log line, and delegates to a verb
method of the inherited `BaseClient`.  We embed every method as a pure
function from the client configuration and the method arguments to the
log line and the single HTTP request it dispatches.
-/

/-- HTTP verbs exposed by the base transport. -/
inductive Verb where
  | GET
  | POST
  | PATCH
  | PUT
  | DELETE
  deriving DecidableEq, Repr

/-- JSON values that appear in request bodies built or forwarded by
`OrgClient`: strings and lists of strings (the `usernames` payload). -/
inductive JVal where
  | str (s : String)
  | list (xs : List String)
  deriving DecidableEq, Repr

/-- A JSON object body: an ordered association list of key/value pairs,
as the Python dict literal is written. -/
abbrev JsonDict := List (String × JVal)

/-- One HTTP request as handed to the base transport: verb, relative
path, query parameters and optional JSON body. -/
structure Request where
  verb : Verb
  path : String
  params : List (String × String)
  json_body : Option JsonDict
  deriving DecidableEq, Repr

/-- The observable effect of one `OrgClient` method call: the log line
emitted before dispatch, then the single request dispatched. -/
structure Call where
  log : String
  request : Request
  deriving DecidableEq, Repr

/-- The authorizer strategies of the `arkid_client.authorizers` package.
Only `BasicAuthorizer` is imported by `org/client.py`; the others stand
for any authorizer type outside the allow-list. -/
inductive AuthorizerType where
  | BasicAuthorizer
  | AccessTokenAuthorizer
  | NullAuthorizer
  deriving DecidableEq, Repr

/-- Constructor-time configuration of an `OrgClient` instance: the base
URL and the authorizer handed to `__init__`.  The class attributes
(`allowed_authorizer_types`, `error_class`, `default_response_class`,
and the service name `"org"`) are constants of the class, embedded as
top-level definitions below. -/
structure OrgClient where
  base_url : String
  authorizer : AuthorizerType
  deriving DecidableEq, Repr

namespace OrgClient

/-- `allowed_authorizer_types = [BasicAuthorizer]` from the class body. -/
def allowed_authorizer_types : List AuthorizerType := [.BasicAuthorizer]

/-- The service name passed to `BaseClient.__init__` by
`OrgClient.__init__`: `BaseClient.__init__(self, base_url, "org", ...)`. -/
def service : String := "org"

end OrgClient

namespace BaseClient

/-- Modelled from the spec: `BaseClient` is not under `src/`; the spec
says every endpoint lives under `/siteapi/v1/org/...`, i.e. the base
client composes the full request path from the fixed service prefix
`/siteapi/v1/`, the service name given at construction, `/`, and the
relative path supplied by the resource client. -/
def fullPath (service relPath : String) : String :=
  "/siteapi/v1/" ++ service ++ "/" ++ relPath

/-- Modelled from the spec: the base transport (not under `src/`)
exposes verb methods `get/post/patch/put/delete(path, params?,
json_body?)`, each of which dispatches exactly one HTTP request with
the given verb, relative path, query parameters and body. -/
def dispatch (v : Verb) (path : String) (params : List (String × String))
    (json_body : Option JsonDict) : Request :=
  { verb := v, path := path, params := params, json_body := json_body }

end BaseClient

namespace OrgClient

/-- `query_own_org(**params)`: logs, then `GET ''` with the query
parameters.  Returns the call and the (unchanged) client. -/
def query_own_org (c : OrgClient) (params : List (String × String)) :
    Call × OrgClient :=
  ({ log := "正在调用 OrgClient.query_own_org() 接口与 ArkID 服务端进行交互"
   , request := BaseClient.dispatch .GET "" params none }, c)

/-- `query_org(oid)`: logs, then `GET '\x7b\x7d/'.format(oid)`. -/
def query_org (c : OrgClient) (oid : String) : Call × OrgClient :=
  ({ log := "正在调用 OrgClient.query_org() 接口与 ArkID 服务端进行交互"
   , request := BaseClient.dispatch .GET (oid ++ "/") [] none }, c)

/-- `create_org(json_body)`: logs, then `POST ''` with the caller's
dict as the body. -/
def create_org (c : OrgClient) (json_body : JsonDict) : Call × OrgClient :=
  ({ log := "正在调用 OrgClient.create_org() 接口与 ArkID 服务端进行交互"
   , request := BaseClient.dispatch .POST "" [] (some json_body) }, c)

/-- `delete_org(oid)`: logs, then `DELETE '\x7b\x7d/'.format(oid)`. -/
def delete_org (c : OrgClient) (oid : String) : Call × OrgClient :=
  ({ log := "正在调用 OrgClient.delete_org() 接口与 ArkID 服务端进行交互"
   , request := BaseClient.dispatch .DELETE (oid ++ "/") [] none }, c)

/-- `update_org(oid, json_body)`: logs, then `PATCH '\x7b\x7d/'.format(oid)`
with the caller's dict as the body. -/
def update_org (c : OrgClient) (oid : String) (json_body : JsonDict) :
    Call × OrgClient :=
  ({ log := "正在调用 OrgClient.update_org() 接口与 ArkID 服务端进行交互"
   , request := BaseClient.dispatch .PATCH (oid ++ "/") [] (some json_body) }, c)

/-- `query_orguser_list(oid, **params)`: logs, then
`GET '\x7b\x7d/user/'.format(oid)` with the query parameters. -/
def query_orguser_list (c : OrgClient) (oid : String)
    (params : List (String × String)) : Call × OrgClient :=
  ({ log := "正在调用 OrgClient.query_orguser_list() 接口与 ArkID 服务端进行交互"
   , request := BaseClient.dispatch .GET (oid ++ "/user/") params none }, c)

/-- `add_orguser(oid, usernames)`: logs, builds
`json_body = \x7b'subject': 'add', 'usernames': usernames\x7d`, then
`PATCH '\x7b\x7d/user/'.format(oid)` with that body. -/
def add_orguser (c : OrgClient) (oid : String) (usernames : List String) :
    Call × OrgClient :=
  ({ log := "正在调用 OrgClient.add_orguser() 接口与 ArkID 服务端进行交互"
   , request := BaseClient.dispatch .PATCH (oid ++ "/user/") []
       (some [("subject", .str "add"), ("usernames", .list usernames)]) }, c)

/-- `delete_orguser(oid, usernames)`: logs, builds
`json_body = \x7b'subject': 'delete', 'usernames': usernames\x7d`, then
`PATCH '\x7b\x7d/user/'.format(oid)` with that body. -/
def delete_orguser (c : OrgClient) (oid : String) (usernames : List String) :
    Call × OrgClient :=
  ({ log := "正在调用 OrgClient.delete_orguser() 接口与 ArkID 服务端进行交互"
   , request := BaseClient.dispatch .PATCH (oid ++ "/user/") []
       (some [("subject", .str "delete"), ("usernames", .list usernames)]) }, c)

/-- `query_orguser(oid, username)`: logs, then
`GET '\x7b\x7d/user/\x7b\x7d/'.format(oid, username)`. -/
def query_orguser (c : OrgClient) (oid username : String) : Call × OrgClient :=
  ({ log := "正在调用 OrgClient.query_orguser() 接口与 ArkID 服务端进行交互"
   , request := BaseClient.dispatch .GET (oid ++ "/user/" ++ username ++ "/")
       [] none }, c)

/-- `update_orguser(oid, username, json_body)`: logs, then
`PATCH '\x7b\x7d/user/\x7b\x7d/'.format(oid, username)` with the
caller's dict as the body. -/
def update_orguser (c : OrgClient) (oid username : String)
    (json_body : JsonDict) : Call × OrgClient :=
  ({ log := "正在调用 OrgClient.update_orguser() 接口与 ArkID 服务端进行交互"
   , request := BaseClient.dispatch .PATCH (oid ++ "/user/" ++ username ++ "/")
       [] (some json_body) }, c)

/-- `get_org_invitation_key(oid)`: logs, then
`GET '\x7b\x7d/invitation/'.format(oid)`. -/
def get_org_invitation_key (c : OrgClient) (oid : String) : Call × OrgClient :=
  ({ log := "正在调用 OrgClient.get_org_invitation_key() 接口与 ArkID 服务端进行交互"
   , request := BaseClient.dispatch .GET (oid ++ "/invitation/") [] none }, c)

/-- `refresh_org_invitation_key(oid)`: logs (note: the source's log line
literally names `get_org_invitation_key`), then
`PUT '\x7b\x7d/invitation/'.format(oid)`. -/
def refresh_org_invitation_key (c : OrgClient) (oid : String) :
    Call × OrgClient :=
  ({ log := "正在调用 OrgClient.get_org_invitation_key() 接口与 ArkID 服务端进行交互"
   , request := BaseClient.dispatch .PUT (oid ++ "/invitation/") [] none }, c)

/-- `view_org_by_invitation_key(oid, invite_link_key)`: logs, then
`GET '\x7b\x7d/invitation/\x7b\x7d/'.format(oid, invite_link_key)`. -/
def view_org_by_invitation_key (c : OrgClient) (oid invite_link_key : String) :
    Call × OrgClient :=
  ({ log := "正在调用 OrgClient.view_org_by_invitation_key() 接口与 ArkID 服务端进行交互"
   , request := BaseClient.dispatch .GET
       (oid ++ "/invitation/" ++ invite_link_key ++ "/") [] none }, c)

/-- `join_org_by_invitation_key(oid, invite_link_key)`: logs, then
`POST '\x7b\x7d/invitation/\x7b\x7d/'.format(oid, invite_link_key)`. -/
def join_org_by_invitation_key (c : OrgClient) (oid invite_link_key : String) :
    Call × OrgClient :=
  ({ log := "正在调用 OrgClient.join_org_by_invitation_key() 接口与 ArkID 服务端进行交互"
   , request := BaseClient.dispatch .POST
       (oid ++ "/invitation/" ++ invite_link_key ++ "/") [] none }, c)

end OrgClient

/-- Modelled from the spec: `BaseClient.__init__` (not under `src/`)
validates the authorizer against the resource client's allow-list and
raises at construction time, before any HTTP request, when its type is
not allowed: "Authorizer type mismatches are rejected at construction
time."  Embedded as a fallible constructor that dispatches no request. -/
def OrgClient.mk? (base_url : String) (authorizer : AuthorizerType) :
    Except String OrgClient :=
  if authorizer ∈ OrgClient.allowed_authorizer_types then
    .ok { base_url := base_url, authorizer := authorizer }
  else
    .error "unsupported authorizer type"

/-- A raw server HTTP response: status code and message body. -/
structure ServerResponse where
  http_status : Nat
  message : String
  deriving DecidableEq, Repr

/-- `OrgAPIError`, the client's configured `error_class`: the domain
error carrying the server's HTTP status and message. -/
structure OrgAPIError where
  http_status : Nat
  message : String
  deriving DecidableEq, Repr

/-- `ArkIDHTTPResponse`, the client's `default_response_class`: wraps a
successful server response. -/
structure ArkIDHTTPResponse where
  raw : ServerResponse
  deriving DecidableEq, Repr

/-- Modelled from the spec: the response handling of the base client
(not under `src/`): "All failures surface as a single domain error kind
carrying the server's HTTP status and message; no local retries ...
every error is propagated verbatim to the caller."  A response with an
error status (4xx/5xx) is raised once as `OrgAPIError` with the status
and message unchanged; any other response is wrapped in
`ArkIDHTTPResponse`. -/
def BaseClient.handle_response (resp : ServerResponse) :
    Except OrgAPIError ArkIDHTTPResponse :=
  if 400 ≤ resp.http_status then
    .error { http_status := resp.http_status, message := resp.message }
  else
    .ok { raw := resp }

/-- One invocation of an `OrgClient` method with its arguments, for
quantifying over all methods of the class. -/
inductive Invocation where
  | query_own_org (params : List (String × String))
  | query_org (oid : String)
  | create_org (json_body : JsonDict)
  | delete_org (oid : String)
  | update_org (oid : String) (json_body : JsonDict)
  | query_orguser_list (oid : String) (params : List (String × String))
  | add_orguser (oid : String) (usernames : List String)
  | delete_orguser (oid : String) (usernames : List String)
  | query_orguser (oid : String) (username : String)
  | update_orguser (oid : String) (username : String) (json_body : JsonDict)
  | get_org_invitation_key (oid : String)
  | refresh_org_invitation_key (oid : String)
  | view_org_by_invitation_key (oid : String) (invite_link_key : String)
  | join_org_by_invitation_key (oid : String) (invite_link_key : String)
  deriving DecidableEq, Repr

/-- Dispatch one invocation to the corresponding `OrgClient` method. -/
def OrgClient.run (c : OrgClient) : Invocation → Call × OrgClient
  | .query_own_org params => c.query_own_org params
  | .query_org oid => c.query_org oid
  | .create_org json_body => c.create_org json_body
  | .delete_org oid => c.delete_org oid
  | .update_org oid json_body => c.update_org oid json_body
  | .query_orguser_list oid params => c.query_orguser_list oid params
  | .add_orguser oid usernames => c.add_orguser oid usernames
  | .delete_orguser oid usernames => c.delete_orguser oid usernames
  | .query_orguser oid username => c.query_orguser oid username
  | .update_orguser oid username json_body =>
      c.update_orguser oid username json_body
  | .get_org_invitation_key oid => c.get_org_invitation_key oid
  | .refresh_org_invitation_key oid => c.refresh_org_invitation_key oid
  | .view_org_by_invitation_key oid key => c.view_org_by_invitation_key oid key
  | .join_org_by_invitation_key oid key => c.join_org_by_invitation_key oid key

/-- Run a sequence of invocations on one client instance, threading the
client state through and collecting the calls. -/
def OrgClient.runAll (c : OrgClient) : List Invocation → List Call × OrgClient
  | [] => ([], c)
  | inv :: rest =>
      let step := c.run inv
      let tail := step.2.runAll rest
      (step.1 :: tail.1, tail.2)

/-- The Python name of the method an invocation calls. -/
def Invocation.methodName : Invocation → String
  | .query_own_org _ => "query_own_org"
  | .query_org _ => "query_org"
  | .create_org _ => "create_org"
  | .delete_org _ => "delete_org"
  | .update_org _ _ => "update_org"
  | .query_orguser_list _ _ => "query_orguser_list"
  | .add_orguser _ _ => "add_orguser"
  | .delete_orguser _ _ => "delete_orguser"
  | .query_orguser _ _ => "query_orguser"
  | .update_orguser _ _ _ => "update_orguser"
  | .get_org_invitation_key _ => "get_org_invitation_key"
  | .refresh_org_invitation_key _ => "refresh_org_invitation_key"
  | .view_org_by_invitation_key _ _ => "view_org_by_invitation_key"
  | .join_org_by_invitation_key _ _ => "join_org_by_invitation_key"

/-- The log line every method of the class is expected to emit for a
method named `m`, following the uniform pattern of the source. -/
def expectedLog (m : String) : String :=
  "正在调用 OrgClient." ++ m ++ "() 接口与 ArkID 服务端进行交互"

/-- Whether an invocation is of one of the five methods the spec says
attach a JSON body: `create_org`, `update_org`, `add_orguser`,
`delete_orguser`, `update_orguser`. -/
def Invocation.attachesBody : Invocation → Bool
  | .create_org _ => true
  | .update_org _ _ => true
  | .add_orguser _ _ => true
  | .delete_orguser _ _ => true
  | .update_orguser _ _ _ => true
  | _ => false

theorem OrgClient.run_state (c : OrgClient) (inv : Invocation) :
    (c.run inv).2 = c := by
  cases inv <;> rfl

theorem OrgClient.runAll_state (c : OrgClient) (invs : List Invocation) :
    (c.runAll invs).2 = c := by
  induction invs generalizing c with
  | nil => rfl
  | cons inv rest ih =>
      show ((c.run inv).2.runAll rest).2 = c
      rw [OrgClient.run_state]
      exact ih c

/-- Claim C1: for every `oid`, `query_org(oid)` issues exactly one GET
request, whose path appends `oid` and `/` to the org base path
(`/siteapi/v1/org/` followed by `oid` followed by `/`), with no query
parameters and no body. -/
theorem C1_query_org_one_get (c : OrgClient) (oid : String) :
    (c.query_org oid).1.request.verb = Verb.GET ∧
    BaseClient.fullPath OrgClient.service (c.query_org oid).1.request.path
      = "/siteapi/v1/org/" ++ oid ++ "/" ∧
    (c.query_org oid).1.request.params = [] ∧
    (c.query_org oid).1.request.json_body = none := by
  refine ⟨rfl, ?_, rfl, rfl⟩
  simp [OrgClient.query_org, BaseClient.dispatch, BaseClient.fullPath,
    OrgClient.service, String.append_assoc]

/-- Claim C2: for every `oid` and list of usernames, `add_orguser`
issues exactly one PATCH to relative path `oid ++ "/user/"` (full path
`/siteapi/v1/org/` followed by `oid` followed by `/user/`), whose JSON
body is exactly the two-key mapping with subject `add` and the
usernames passed through unmodified. -/
theorem C2_add_orguser_patch (c : OrgClient) (oid : String)
    (usernames : List String) :
    (c.add_orguser oid usernames).1.request.verb = Verb.PATCH ∧
    (c.add_orguser oid usernames).1.request.path = oid ++ "/user/" ∧
    BaseClient.fullPath OrgClient.service
        (c.add_orguser oid usernames).1.request.path
      = "/siteapi/v1/org/" ++ oid ++ "/user/" ∧
    (c.add_orguser oid usernames).1.request.json_body
      = some [("subject", JVal.str "add"),
              ("usernames", JVal.list usernames)] := by
  refine ⟨rfl, rfl, ?_, rfl⟩
  simp [OrgClient.add_orguser, BaseClient.dispatch, BaseClient.fullPath,
    OrgClient.service, String.append_assoc]

/-- Claim C3: for every `oid` and list of usernames, `delete_orguser`
issues a PATCH to exactly the same path as `add_orguser`, with the same
verb, and its JSON body differs from the latter's only in the value of
the subject key: `delete` instead of `add`, with identical usernames. -/
theorem C3_delete_vs_add_orguser (c : OrgClient) (oid : String)
    (usernames : List String) :
    (c.delete_orguser oid usernames).1.request.path
      = (c.add_orguser oid usernames).1.request.path ∧
    (c.delete_orguser oid usernames).1.request.verb
      = (c.add_orguser oid usernames).1.request.verb ∧
    (c.add_orguser oid usernames).1.request.json_body
      = some [("subject", JVal.str "add"),
              ("usernames", JVal.list usernames)] ∧
    (c.delete_orguser oid usernames).1.request.json_body
      = some [("subject", JVal.str "delete"),
              ("usernames", JVal.list usernames)] :=
  ⟨rfl, rfl, rfl, rfl⟩

/-- Claim C4: for every dict `json_body`, `create_org(json_body)`
issues one POST to the org collection path (empty relative path, full
path `/siteapi/v1/org/`) whose JSON body is exactly the caller's dict,
unmodified. -/
theorem C4_create_org_post (c : OrgClient) (json_body : JsonDict) :
    (c.create_org json_body).1.request.verb = Verb.POST ∧
    (c.create_org json_body).1.request.path = "" ∧
    BaseClient.fullPath OrgClient.service
        (c.create_org json_body).1.request.path = "/siteapi/v1/org/" ∧
    (c.create_org json_body).1.request.json_body = some json_body := by
  refine ⟨rfl, rfl, ?_, rfl⟩
  simp [OrgClient.create_org, BaseClient.dispatch, BaseClient.fullPath,
    OrgClient.service]

/-- Claim C5 fails on the code: calling `refresh_org_invitation_key`
emits a log line that names `get_org_invitation_key`, not the method
actually invoked; the emitted line differs from the expected one. -/
theorem C5_refresh_logs_wrong_name :
    (OrgClient.run ⟨"https://example.com", .BasicAuthorizer⟩
        (.refresh_org_invitation_key "oid1")).1.log
      = expectedLog "get_org_invitation_key" ∧
    (OrgClient.run ⟨"https://example.com", .BasicAuthorizer⟩
        (.refresh_org_invitation_key "oid1")).1.log
      ≠ expectedLog
          (Invocation.methodName (.refresh_org_invitation_key "oid1")) := by
  refine ⟨rfl, ?_⟩
  decide

/-- Claim C6: the allow-list contains exactly `BasicAuthorizer`, and
constructing an `OrgClient` with an authorizer whose type is not in it
fails at construction; the failed construction yields no client value,
so no request is ever issued through it. -/
theorem C6_bad_authorizer_rejected (base_url : String)
    (auth : AuthorizerType) (h : auth ∉ OrgClient.allowed_authorizer_types) :
    OrgClient.allowed_authorizer_types = [AuthorizerType.BasicAuthorizer] ∧
    OrgClient.mk? base_url auth = .error "unsupported authorizer type" := by
  refine ⟨rfl, ?_⟩
  simp [OrgClient.mk?, h]

theorem C6_bad_authorizer_rejected_witness :
    AuthorizerType.NullAuthorizer ∉ OrgClient.allowed_authorizer_types ∧
    (OrgClient.allowed_authorizer_types = [AuthorizerType.BasicAuthorizer] ∧
     OrgClient.mk? "https://example.com" AuthorizerType.NullAuthorizer
       = .error "unsupported authorizer type") :=
  ⟨by decide,
   C6_bad_authorizer_rejected "https://example.com"
     AuthorizerType.NullAuthorizer (by decide)⟩

/-- Claim C7: if the server returns an error response, the call raises
exactly the configured error class `OrgAPIError`, carrying the HTTP
status and message of the server response unchanged; the result type
admits no other error kind and no retry. -/
theorem C7_error_propagated (resp : ServerResponse)
    (h : 400 ≤ resp.http_status) :
    BaseClient.handle_response resp
      = .error { http_status := resp.http_status, message := resp.message } := by
  simp [BaseClient.handle_response, h]

theorem C7_error_propagated_witness :
    400 ≤ (ServerResponse.mk 404 "not found").http_status ∧
    BaseClient.handle_response (ServerResponse.mk 404 "not found")
      = .error { http_status := 404, message := "not found" } :=
  ⟨by decide, C7_error_propagated (ServerResponse.mk 404 "not found") (by decide)⟩

/-- Claim C8: no method mutates client-side state: after any sequence
of invocations the client configuration equals the constructor-time
configuration, and the call produced by an invocation after any prefix
of prior invocations equals the call produced on the fresh client. -/
theorem C8_stateless (c : OrgClient) (invs pre : List Invocation)
    (inv : Invocation) :
    (c.runAll invs).2 = c ∧
    ((c.runAll pre).2.run inv).1 = (c.run inv).1 := by
  refine ⟨OrgClient.runAll_state c invs, ?_⟩
  rw [OrgClient.runAll_state]

/-- Claim C9: path construction is plain interpolation with no
escaping, so the map from operations and identifiers to paths is not
injective: `query_org` on oid `x/user/y` and `query_orguser` on oid
`x`, username `y` are distinct invocations issuing requests to the
same path. -/
theorem C9_path_collision (c : OrgClient) :
    Invocation.query_org "x/user/y" ≠ Invocation.query_orguser "x" "y" ∧
    (c.query_org "x/user/y").1.request.path
      = (c.query_orguser "x" "y").1.request.path := by
  refine ⟨by decide, ?_⟩
  simp [OrgClient.query_org, OrgClient.query_orguser, BaseClient.dispatch]

/-- Claim C10: `join_org_by_invitation_key` issues its POST with no
JSON body; `refresh_org_invitation_key` issues its PUT with no JSON
body and no query parameters; and across all methods, a body is
attached exactly by `create_org`, `update_org`, `add_orguser`,
`delete_orguser` and `update_orguser`. -/
theorem C10_body_discipline (c : OrgClient) (inv : Invocation)
    (oid key : String) :
    (c.join_org_by_invitation_key oid key).1.request.verb = Verb.POST ∧
    (c.join_org_by_invitation_key oid key).1.request.json_body = none ∧
    (c.refresh_org_invitation_key oid).1.request.verb = Verb.PUT ∧
    (c.refresh_org_invitation_key oid).1.request.json_body = none ∧
    (c.refresh_org_invitation_key oid).1.request.params = [] ∧
    ((c.run inv).1.request.json_body).isSome = Invocation.attachesBody inv := by
  refine ⟨rfl, rfl, rfl, rfl, rfl, ?_⟩
  cases inv <;> rfl
